import Mathlib

/-!
# Verification of the cf_ai_notex core: ChatSession actor and AI workflows

Shallow embedding of the repository's core logic:

* `ChatSession` — the Durable Object class in `backend/src/chatSession.ts`
  (session initialization, post-message with model reply, store-message,
  get-history, clear, and the idle-timeout alarm handler).
* `SummaryWorkflow` — `backend/src/workflows/summaryWorkflow.ts`.
* `QuestionsWorkflow` — `backend/src/workflows/questionsWorkflow.ts`.

Modelling conventions:

* Durable Object storage is explicit state passing over `ActorState`
  (the two storage records `sessionData` and `messages`, plus the single
  pending alarm time).  `storage.get`/`put`/`delete` are field reads and
  functional updates; a value `push`ed onto a locally fetched array does
  not change storage unless it is `put` back, exactly as in the source.
* The Workers AI binding `env.AI.run(model, {messages, max_tokens,
  temperature})` is an injected `ModelInvoker` function.  A rejected
  promise is `Except.error ()`; a fulfilled call yields the optional
  `response` field (`none` models an absent/undefined field).
* JavaScript string truncation `s.slice(0, n)` is `jsSlice s n`;
  `arr.slice(-n)` on arrays is `takeLast n`; the JS "or default" idiom
  `x || d` on the optional response field is `jsOr`.
* `JSON.parse` is modelled by `parseJson`, a total recursive-descent
  reader of the JSON value grammar (numbers as rationals).  A parse
  failure models a thrown exception.  Minor laxities (raw control
  characters inside string literals are accepted, `\u` surrogate halves
  are not combined) do not affect any statement below: every concrete
  input parsed here is plain ASCII without escapes, and the fallback
  paths only need the reader to be total.
* Thrown JS exceptions are `Except.error ()`; a `try { body } catch`
  that returns a fallback value is `jsTry`.
-/

/-- JS `x || d` for the optional `response` field of an AI call:
`undefined` (here `none`) and the empty string are falsy. -/
def jsOr (x : Option String) (d : String) : String :=
  match x with
  | none => d
  | some s => if s = "" then d else s

/-- JS `s.slice(0, n)`: the first `min n s.length` units of `s`
(written over the character list so truncation is structural). -/
def jsSlice (s : String) (n : Nat) : String :=
  String.mk (s.toList.take n)

/-- JS `try { body } catch { return fallback }` for a body modelled in
the exception monad. -/
def jsTry {α : Type} (body : Except Unit α) (fallback : α) : Except Unit α :=
  match body with
  | .ok a => .ok a
  | .error _ => .ok fallback

/-- JS `arr.slice(-n)`: the last `min n arr.length` elements. -/
def takeLast {α : Type} (n : Nat) (l : List α) : List α :=
  (l.reverse.take n).reverse

theorem takeLast_of_length_le {α : Type} (n : Nat) (l : List α)
    (h : l.length ≤ n) : takeLast n l = l := by
  unfold takeLast
  rw [List.take_of_length_le (by simpa using h), List.reverse_reverse]

theorem length_takeLast {α : Type} (n : Nat) (l : List α) :
    (takeLast n l).length = min n l.length := by
  simp [takeLast]

theorem takeLast_length_le {α : Type} (n : Nat) (l : List α) :
    (takeLast n l).length ≤ n := by
  rw [length_takeLast]; exact Nat.min_le_left _ _

/-- Trimming is idempotent across appends: trimming an already trimmed
list before appending more elements gives the same result as trimming
the untrimmed concatenation. -/
theorem takeLast_append_takeLast {α : Type} (n : Nat) (xs ys : List α) :
    takeLast n (takeLast n xs ++ ys) = takeLast n (xs ++ ys) := by
  unfold takeLast
  rw [List.reverse_append, List.reverse_reverse, List.reverse_append]
  rw [List.take_append_eq_append_take, List.take_append_eq_append_take]
  rw [List.take_take]
  congr 2
  exact Nat.min_le_left _ _ |>.antisymm (Nat.le_min.mpr ⟨le_rfl, Nat.sub_le _ _⟩) |>.symm ▸ rfl

/-- `takeLast n` of a list with one element appended keeps that element
and the last `n - 1` of the prefix. -/
theorem takeLast_append_singleton {α : Type} (n : Nat) (xs : List α) (u : α) :
    takeLast (n + 1) (xs ++ [u]) = takeLast n xs ++ [u] := by
  unfold takeLast
  rw [List.reverse_append]
  simp [List.take_succ_cons]

/-! ## JSON values and `JSON.parse`

`Json` is the runtime shape of `JSON.parse` results flowing through the
workflows (the TypeScript annotations `string[]` and
`Array<{index; type; difficulty}>` are unchecked casts in the source, so
the embedding keeps the honest dynamic type). -/

inductive Json where
  | null
  | bool (b : Bool)
  | num (q : ℚ)
  | str (s : String)
  | arr (elems : List Json)
  | obj (fields : List (String × Json))

/-- JS property access `o.k` on a parsed JSON value: `none` models
`undefined` (non-objects and missing keys); duplicate keys keep the last
binding, as `JSON.parse` does. -/
def Json.getField? (j : Json) (k : String) : Option Json :=
  match j with
  | .obj fields => (fields.reverse.find? (fun f => f.1 == k)).map Prod.snd
  | _ => none

def jsSkipWs (cs : List Char) : List Char :=
  cs.dropWhile fun c => c == ' ' || c == '\n' || c == '\t' || c == '\r'

def hexDigitVal? (c : Char) : Option Nat :=
  if c.isDigit then some (c.toNat - 48)
  else if 'a' ≤ c && c ≤ 'f' then some (c.toNat - 87)
  else if 'A' ≤ c && c ≤ 'F' then some (c.toNat - 55)
  else none

def escChar? (c : Char) : Option Char :=
  if c = '"' then some '"'
  else if c = '\\' then some '\\'
  else if c = '/' then some '/'
  else if c = 'b' then some (Char.ofNat 8)
  else if c = 'f' then some (Char.ofNat 12)
  else if c = 'n' then some '\n'
  else if c = 'r' then some '\r'
  else if c = 't' then some '\t'
  else none

/-- Body of a JSON string literal (after the opening quote), returning
the decoded characters and the remainder after the closing quote. -/
def parseStringChars : Nat → List Char → Option (List Char × List Char)
  | 0, _ => none
  | _ + 1, [] => none
  | fuel + 1, c :: rest =>
    if c = '"' then some ([], rest)
    else if c = '\\' then
      match rest with
      | 'u' :: a :: b :: c1 :: d :: rest2 => do
          let ha ← hexDigitVal? a
          let hb ← hexDigitVal? b
          let hc ← hexDigitVal? c1
          let hd ← hexDigitVal? d
          let (s, r) ← parseStringChars fuel rest2
          some (Char.ofNat (((ha * 16 + hb) * 16 + hc) * 16 + hd) :: s, r)
      | e :: rest2 => do
          let ec ← escChar? e
          let (s, r) ← parseStringChars fuel rest2
          some (ec :: s, r)
      | [] => none
    else do
      let (s, r) ← parseStringChars fuel rest
      some (c :: s, r)

def digitsVal (ds : List Char) : Nat :=
  ds.foldl (fun n c => n * 10 + (c.toNat - 48)) 0

/-- JSON number grammar `-?digits(.digits)?([eE][+-]?digits)?`, read as
an exact rational. -/
def parseNumberChars (cs : List Char) : Option (ℚ × List Char) :=
  let (neg, cs1) := match cs with
    | '-' :: r => (true, r)
    | _ => (false, cs)
  let intDigits := cs1.takeWhile Char.isDigit
  let cs2 := cs1.dropWhile Char.isDigit
  if intDigits.isEmpty then none
  else
    let (fracDigits, cs3) := match cs2 with
      | '.' :: r => (r.takeWhile Char.isDigit, r.dropWhile Char.isDigit)
      | _ => ([], cs2)
    if (match cs2 with | '.' :: _ => fracDigits.isEmpty | _ => false) then none
    else
      let mkNum : Int → List Char → Option (ℚ × List Char) := fun e rest =>
        -- Plain integers take a normalization-free path (same value as the
        -- general formula below with an empty fraction and zero exponent).
        if fracDigits.isEmpty ∧ e = 0 then
          let n : Int := digitsVal intDigits
          some (((if neg then -n else n : Int) : ℚ), rest)
        else
          let base : ℚ :=
            (digitsVal intDigits : ℚ) + (digitsVal fracDigits : ℚ) / (10 : ℚ) ^ fracDigits.length
          some ((if neg then -base else base) * (10 : ℚ) ^ e, rest)
      match cs3 with
      | c :: r =>
        if c == 'e' || c == 'E' then
          let (esign, r1) := match r with
            | '+' :: rr => ((1 : Int), rr)
            | '-' :: rr => ((-1 : Int), rr)
            | _ => ((1 : Int), r)
          let eDigits := r1.takeWhile Char.isDigit
          let r2 := r1.dropWhile Char.isDigit
          if eDigits.isEmpty then none
          else mkNum (esign * (digitsVal eDigits : Int)) r2
        else mkNum 0 cs3
      | [] => mkNum 0 cs3

mutual

def parseValue : Nat → List Char → Option (Json × List Char)
  | 0, _ => none
  | fuel + 1, cs =>
    match jsSkipWs cs with
    | 'n' :: 'u' :: 'l' :: 'l' :: rest => some (.null, rest)
    | 't' :: 'r' :: 'u' :: 'e' :: rest => some (.bool true, rest)
    | 'f' :: 'a' :: 'l' :: 's' :: 'e' :: rest => some (.bool false, rest)
    | '"' :: rest => do
        let (s, r) ← parseStringChars (rest.length + 1) rest
        some (.str ⟨s⟩, r)
    | '\x7b' :: rest => parseMembers fuel rest
    | '[' :: rest => parseElems fuel rest
    | cs1 => do
        let (q, r) ← parseNumberChars cs1
        some (.num q, r)

def parseElems : Nat → List Char → Option (Json × List Char)
  | 0, _ => none
  | fuel + 1, cs =>
    match jsSkipWs cs with
    | ']' :: rest => some (.arr [], rest)
    | cs1 => do
        let (v, r) ← parseValue fuel cs1
        let (vs, r2) ← parseElemsRest fuel r
        some (.arr (v :: vs), r2)

def parseElemsRest : Nat → List Char → Option (List Json × List Char)
  | 0, _ => none
  | fuel + 1, cs =>
    match jsSkipWs cs with
    | ',' :: rest => do
        let (v, r) ← parseValue fuel rest
        let (vs, r2) ← parseElemsRest fuel r
        some (v :: vs, r2)
    | ']' :: rest => some ([], rest)
    | _ => none

def parseMembers : Nat → List Char → Option (Json × List Char)
  | 0, _ => none
  | fuel + 1, cs =>
    match jsSkipWs cs with
    | '\x7d' :: rest => some (.obj [], rest)
    | '"' :: rest => do
        let (k, r) ← parseStringChars (rest.length + 1) rest
        let (v, r2) ← parseMemberValue fuel r
        let (fs, r3) ← parseMembersRest fuel r2
        some (.obj ((⟨k⟩, v) :: fs), r3)
    | _ => none

def parseMemberValue : Nat → List Char → Option (Json × List Char)
  | 0, _ => none
  | fuel + 1, cs =>
    match jsSkipWs cs with
    | ':' :: rest => parseValue fuel rest
    | _ => none

def parseMembersRest : Nat → List Char → Option (List (String × Json) × List Char)
  | 0, _ => none
  | fuel + 1, cs =>
    match jsSkipWs cs with
    | ',' :: rest =>
      match jsSkipWs rest with
      | '"' :: rest2 => do
          let (k, r) ← parseStringChars (rest2.length + 1) rest2
          let (v, r2) ← parseMemberValue fuel r
          let (fs, r3) ← parseMembersRest fuel r2
          some ((⟨k⟩, v) :: fs, r3)
      | _ => none
    | '\x7d' :: rest => some ([], rest)
    | _ => none

end

/-- `JSON.parse`: read one value and require only whitespace after it;
`none` models a thrown `SyntaxError`. -/
def parseJson (s : String) : Option Json := do
  let cs := s.toList
  let (v, rest) ← parseValue (cs.length + 1) cs
  if (jsSkipWs rest).isEmpty then some v else none

/-- The source regex `text.match(/\[.*\]/s)`: with the dot-all flag and a
greedy star, `match[0]` is the substring from the first opening bracket
to the last closing bracket after it, when such a pair exists. -/
def extractJsonArray (s : String) : Option String :=
  let cs := s.toList
  match cs.findIdx? (· == '[') with
  | none => none
  | some i =>
    match cs.reverse.findIdx? (· == ']') with
    | none => none
    | some jr =>
      let j := cs.length - 1 - jr
      if i < j then some ⟨(cs.drop i).take (j - i + 1)⟩ else none

/-! ## ChatSession Durable Object (`backend/src/chatSession.ts`)

`ActorState` packages the per-session Durable Object storage: the two
records `sessionData` and `messages` plus the single pending alarm time.
The in-memory `this.sessionData` mirrors the stored record at the start
of every handler (the constructor loads it under
`blockConcurrencyWhile`), so one field stands for both. -/

structure ChatMessage where
  role : String
  content : String
  timestamp : Nat
deriving DecidableEq, Repr

structure SessionData where
  noteId : String
  noteContext : String
  lastActivity : Nat
deriving DecidableEq, Repr

structure ActorState where
  sessionData : Option SessionData
  storedMessages : Option (List ChatMessage)
  alarm : Option Nat
deriving DecidableEq, Repr

/-- One role-tagged entry of the list handed to `env.AI.run`. -/
structure AiMessage where
  role : String
  content : String
deriving DecidableEq, Repr

/-- The injected model backend: `env.AI.run(model, {messages, max_tokens,
temperature})`.  `Except.error` models a rejected promise; the payload is
the optional `response` field of the result object. -/
abbrev ModelInvoker : Type := List AiMessage → Nat → ℚ → Except Unit (Option String)

namespace ChatSession

def twentyFourHours : Nat := 24 * 60 * 60 * 1000

/-- `getMessages`: `(await storage.get('messages')) || []`. -/
def getMessages (s : ActorState) : List ChatMessage :=
  s.storedMessages.getD []

/-- `handleInit`: overwrite `sessionData`, stamp `lastActivity`, and set
the cleanup alarm 24 hours out. -/
def handleInit (noteId : String) (noteContext : Option String) (now : Nat)
    (s : ActorState) : ActorState :=
  { s with
    sessionData := some { noteId := noteId, noteContext := noteContext.getD "", lastActivity := now },
    alarm := some (now + twentyFourHours) }

/-- The system prompt template of `handleMessage`, carrying
`noteContext.slice(0, 4000)`. -/
def systemPromptFor (noteContext : String) : String :=
  "You are Bob, a helpful AI study assistant. You help students understand their notes by answering questions, explaining concepts, and providing study guidance.\n\nCurrent note context:\n"
    ++ jsSlice noteContext 4000
    ++ "\n\nBe concise, clear, and educational in your responses."

/-- Lines 117-132 of `handleMessage`: the synthesized system message
followed by `messages.slice(-10)`, each history entry truncated to
`content.slice(0, 2000)`. -/
def buildAiMessages (noteContext : String) (messages : List ChatMessage) : List AiMessage :=
  { role := "system", content := systemPromptFor noteContext } ::
    (takeLast 10 messages).map (fun m => { role := m.role, content := jsSlice m.content 2000 })

inductive MessageResult where
  /-- 400 response: `Session not initialized`. -/
  | notInitialized
  /-- 500 response from the catch block: `AI request failed`. -/
  | aiFailed
  /-- 200 response carrying `{reply, history}`. -/
  | replied (reply : String) (history : List ChatMessage)
deriving DecidableEq, Repr

/-- `handleMessage`: the post-message operation.  Note that the user
message is pushed onto the locally fetched array, but
`storage.put('messages', ...)` is executed only in the AI-success
branch — the catch branch returns without writing the array back. -/
def handleMessage (inv : ModelInvoker) (message : String) (noteContext : Option String)
    (now : Nat) (s : ActorState) : MessageResult × ActorState :=
  match s.sessionData with
  | none => (.notInitialized, s)
  | some sd0 =>
    let sd := match noteContext with
      | some nc => { sd0 with noteContext := nc, lastActivity := now }
      | none => sd0
    let s1 : ActorState := { s with sessionData := some sd }
    let messages := getMessages s1 ++ [{ role := "user", content := message, timestamp := now }]
    match inv (buildAiMessages sd.noteContext messages) 1024 (7 / 10 : ℚ) with
    | .error _ => (.aiFailed, s1)
    | .ok resp =>
      let reply := jsOr resp "Sorry, I could not generate a response."
      let messagesToKeep :=
        takeLast 50 (messages ++ [{ role := "assistant", content := reply, timestamp := now }])
      (.replied reply messagesToKeep,
        { s1 with
          storedMessages := some messagesToKeep,
          sessionData := some { sd with lastActivity := now } })

inductive StoreResult where
  /-- 400 response: `Missing role or content`. -/
  | invalidInput
  /-- 200 response: `{success: true}`. -/
  | stored
deriving DecidableEq, Repr

/-- `handleStoreMessage`: append without a model round-trip; requires
truthy `role` and `content`; refreshes `lastActivity` only when
`sessionData` exists. -/
def handleStoreMessage (role content : String) (now : Nat)
    (s : ActorState) : StoreResult × ActorState :=
  if role = "" ∨ content = "" then (.invalidInput, s)
  else
    let messagesToKeep :=
      takeLast 50 (getMessages s ++ [{ role := role, content := content, timestamp := now }])
    let s1 : ActorState := { s with storedMessages := some messagesToKeep }
    match s.sessionData with
    | some sd => (.stored, { s1 with sessionData := some { sd with lastActivity := now } })
    | none => (.stored, s1)

/-- `handleGetHistory`: the full persisted sequence, `[]` if absent. -/
def handleGetHistory (s : ActorState) : List ChatMessage :=
  getMessages s

/-- `handleClear`: `storage.delete('messages')` and nothing else. -/
def handleClear (s : ActorState) : ActorState :=
  { s with storedMessages := none }

/-- The `alarm()` handler.  The platform delivers a one-shot alarm, so
the pending wake-up time is consumed before the handler body runs; the
body re-arms it only in the still-active branch.  `now - lastActivity`
is the JS subtraction: a clock behind `lastActivity` yields a value
below the threshold in both semantics. -/
def alarmFire (now : Nat) (s : ActorState) : ActorState :=
  let s0 : ActorState := { s with alarm := none }
  match s0.sessionData with
  | none => s0
  | some sd =>
    if twentyFourHours ≤ now - sd.lastActivity then
      { s0 with storedMessages := none }
    else
      { s0 with alarm := some (sd.lastActivity + twentyFourHours) }

end ChatSession

/-! ## JS stringification for `topics.join(', ')`

`Array.prototype.join` renders `null` elements as the empty string and
other elements via `String(e)`; nested arrays render as their own
comma-join, objects as `[object Object]`.  (Number rendering is the one
approximation: exact rationals are printed instead of JS float
formatting.  The result only feeds prompt text and no statement below
depends on it.) -/

mutual

def jsStringOfJson : Nat → Json → String
  | _, .str s => s
  | _, .null => "null"
  | _, .bool b => if b then "true" else "false"
  | _, .num q => if q.den = 1 then toString q.num else toString q
  | _, .obj _ => "[object Object]"
  | 0, .arr _ => ""
  | fuel + 1, .arr l => jsJoinJson "," fuel l
termination_by fuel _ => (fuel, 0, 0)

def jsJoinJson : String → Nat → List Json → String
  | _, _, [] => ""
  | _, fuel, [j] => jsElemStr fuel j
  | sep, fuel, j :: rest => jsElemStr fuel j ++ sep ++ jsJoinJson sep fuel rest
termination_by _ fuel l => (fuel, l.length, 2)

def jsElemStr : Nat → Json → String
  | _, .null => ""
  | fuel, j => jsStringOfJson fuel j
termination_by fuel _ => (fuel, 0, 1)

end

/-! ## SummaryWorkflow (`backend/src/workflows/summaryWorkflow.ts`) -/

structure SummaryWorkflowParams where
  noteId : String
  noteContent : String
  noteTitle : String

structure SummaryResult where
  summary : String
  keyPoints : List Json
  topics : List Json

namespace SummaryWorkflow

/-- Try-block of `extractTopics`: one model call, then extract-and-parse
of a JSON array from the raw text.  A missing array pattern returns `[]`
inside the try; a parse failure throws. -/
def extractTopicsBody (inv : ModelInvoker) (content title : String) :
    Except Unit (List Json) := do
  let prompt :=
    "Analyze this note and identify 3-5 main topics or concepts:\n\nTitle: " ++ title
      ++ "\nContent:\n" ++ jsSlice content 3000
      ++ "\n\nReturn ONLY a JSON array of topic strings, e.g., [\"topic1\", \"topic2\", \"topic3\"]"
  let resp ← inv
    [{ role := "system", content := "You are a study assistant that identifies key topics in educational notes. Return only valid JSON." },
     { role := "user", content := prompt }] 200 (0.3 : ℚ)
  let topicsText := jsOr resp "[]"
  match extractJsonArray topicsText with
  | some m =>
    match parseJson m with
    | some (.arr l) => pure l
    | _ => Except.error ()
  | none => pure []

/-- `extractTopics` with its catch: the fallback on a thrown error is
the single default topic `['General']`. -/
def extractTopics (inv : ModelInvoker) (content title : String) :
    Except Unit (List Json) :=
  jsTry (extractTopicsBody inv content title) [Json.str "General"]

/-- Try-block of `generateSummary`: one model call, free text result
with the `'Unable to generate summary.'` default for a falsy response
field. -/
def generateSummaryBody (inv : ModelInvoker) (content title : String)
    (topics : List Json) : Except Unit String := do
  let prompt :=
    "Generate a concise 2-3 paragraph summary of this note:\n\nTitle: " ++ title
      ++ "\nMain Topics: " ++ jsJoinJson ", " (topics.length + 1) topics
      ++ "\nContent:\n" ++ jsSlice content 4000
      ++ "\n\nWrite a clear, concise summary that captures the essential information. Use proper formatting with markdown."
  let resp ← inv
    [{ role := "system", content := "You are a study assistant that creates clear, concise summaries of educational notes." },
     { role := "user", content := prompt }] 400 (0.5 : ℚ)
  pure (jsOr resp "Unable to generate summary.")

/-- `generateSummary` with its catch: the fallback on a thrown error is
the literal error-marker text. -/
def generateSummary (inv : ModelInvoker) (content title : String)
    (topics : List Json) : Except Unit String :=
  jsTry (generateSummaryBody inv content title topics) "Error generating summary."

/-- Try-block of `extractKeyPoints`. -/
def extractKeyPointsBody (inv : ModelInvoker) (content summary : String) :
    Except Unit (List Json) := do
  let prompt :=
    "Based on this note summary, extract 5-7 key points or takeaways:\n\nSummary:\n" ++ summary
      ++ "\n\nOriginal Content (for context):\n" ++ jsSlice content 2000
      ++ "\n\nReturn ONLY a JSON array of key point strings, e.g., [\"point1\", \"point2\", \"point3\"]"
  let resp ← inv
    [{ role := "system", content := "You are a study assistant that identifies key takeaways. Return only valid JSON." },
     { role := "user", content := prompt }] 300 (0.3 : ℚ)
  let pointsText := jsOr resp "[]"
  match extractJsonArray pointsText with
  | some m =>
    match parseJson m with
    | some (.arr l) => pure l
    | _ => Except.error ()
  | none => pure []

/-- `extractKeyPoints` with its catch: empty-sequence fallback. -/
def extractKeyPoints (inv : ModelInvoker) (content summary : String) :
    Except Unit (List Json) :=
  jsTry (extractKeyPointsBody inv content summary) []

/-- `SummaryWorkflow.run`: the three stages in order, each consuming the
previous output; `run` itself has no catch, so a stage that let an
exception escape would surface it here. -/
def run (inv : ModelInvoker) (params : SummaryWorkflowParams) :
    Except Unit SummaryResult := do
  let topics ← extractTopics inv params.noteContent params.noteTitle
  let summary ← generateSummary inv params.noteContent params.noteTitle topics
  let keyPoints ← extractKeyPoints inv params.noteContent summary
  pure { summary := summary, keyPoints := keyPoints, topics := topics }

end SummaryWorkflow

/-! ## QuestionsWorkflow (`backend/src/workflows/questionsWorkflow.ts`) -/

structure QuestionsWorkflowParams where
  noteId : String
  noteContent : String
  noteTitle : String

inductive QType where
  | recall
  | comprehension
  | application
deriving DecidableEq, Repr

inductive QDifficulty where
  | easy
  | medium
  | hard
deriving DecidableEq, Repr

structure StudyQuestion where
  question : String
  type : QType
  difficulty : QDifficulty
deriving DecidableEq, Repr

structure QuestionsResult where
  questions : List StudyQuestion
  totalCount : Nat
deriving DecidableEq, Repr

/-- JS `s.toLowerCase().trim()` as used by the validation helpers and
the difficulty stage (whitespace is stripped from both ends after
lower-casing, written over the character list). -/
def jsNormalize (s : String) : String :=
  String.mk
    ((((s.toList.map Char.toLower).dropWhile Char.isWhitespace).reverse.dropWhile
        Char.isWhitespace).reverse)

namespace QuestionsWorkflow

/-- `validateType`: normalize, check membership in the type vocabulary,
default `comprehension`. -/
def validateType (type : String) : QType :=
  let normalized := jsNormalize type
  if normalized = "recall" then .recall
  else if normalized = "comprehension" then .comprehension
  else if normalized = "application" then .application
  else .comprehension

/-- `validateDifficulty`: normalize, check membership in the difficulty
vocabulary, default `medium`. -/
def validateDifficulty (difficulty : String) : QDifficulty :=
  let normalized := jsNormalize difficulty
  if normalized = "easy" then .easy
  else if normalized = "medium" then .medium
  else if normalized = "hard" then .hard
  else .medium

/-- Try-block of `analyzeContentDifficulty`. -/
def analyzeContentDifficultyBody (inv : ModelInvoker) (content : String) :
    Except Unit String := do
  let prompt :=
    "Analyze the difficulty level of this educational content. \nConsider: technical terminology, concept complexity, prerequisites needed.\n\nContent:\n"
      ++ jsSlice content 2000
      ++ "\n\nReturn ONLY one word: \"beginner\", \"intermediate\", or \"advanced\""
  let resp ← inv
    [{ role := "system", content := "You analyze educational content difficulty. Return only one word." },
     { role := "user", content := prompt }] 10 (0.3 : ℚ)
  let level := jsNormalize (jsOr resp "intermediate")
  if level ∈ ["beginner", "intermediate", "advanced"] then pure level
  else pure "intermediate"

/-- `analyzeContentDifficulty` with its catch: default `intermediate`. -/
def analyzeContentDifficulty (inv : ModelInvoker) (content : String) :
    Except Unit String :=
  jsTry (analyzeContentDifficultyBody inv content) "intermediate"

/-- Try-block of `generateQuestions`: parse a JSON array out of the raw
response and keep only its non-empty string elements. -/
def generateQuestionsBody (inv : ModelInvoker) (content title difficulty : String) :
    Except Unit (List String) := do
  let prompt :=
    "Generate 7-10 study questions for this note. Include a mix of:\n- Recall questions (testing memory)\n- Comprehension questions (testing understanding)\n- Application questions (testing ability to use concepts)\n\nTitle: "
      ++ title ++ "\nDifficulty Level: " ++ difficulty
      ++ "\nContent:\n" ++ jsSlice content 4000
      ++ "\n\nReturn ONLY a JSON array of question strings, e.g., [\"Question 1?\", \"Question 2?\", \"Question 3?\"]"
  let resp ← inv
    [{ role := "system", content := "You generate study questions for educational content. Return only valid JSON." },
     { role := "user", content := prompt }] 600 (0.6 : ℚ)
  let questionsText := jsOr resp "[]"
  match extractJsonArray questionsText with
  | some m =>
    match parseJson m with
    | some (.arr l) =>
        pure (l.filterMap fun j =>
          match j with
          | .str s => if s.length > 0 then some s else none
          | _ => none)
    | _ => Except.error ()
  | none => pure []

/-- `generateQuestions` with its catch: empty-sequence fallback. -/
def generateQuestions (inv : ModelInvoker) (content title difficulty : String) :
    Except Unit (List String) :=
  jsTry (generateQuestionsBody inv content title difficulty) []

/-- `categories.find(c => c.index === idx)`: property access on a
`null` element throws; a strict-equality hit on the `index` field stops
the scan. -/
def findCategory (idx : Nat) : List Json → Except Unit (Option Json)
  | [] => pure none
  | c :: rest =>
    match c with
    | .null => Except.error ()
    | _ =>
      match c.getField? "index" with
      | some (.num n) => if n = (idx : ℚ) then pure (some c) else findCategory idx rest
      | _ => findCategory idx rest

/-- Read a field that the source immediately hands to
`toLowerCase()`: a missing or non-string value throws there. -/
def getStrField (c : Json) (k : String) : Except Unit String :=
  match c.getField? k with
  | some (.str s) => pure s
  | _ => Except.error ()

/-- The `questions.map((question, idx) => ...)` of `categorizeQuestions`:
look up each position in the parsed categorization array, fall back to
the default object when absent, and validate both labels.  A throw from
any element aborts the whole map. -/
def assignCategories (categories : List Json) :
    List String → Nat → Except Unit (List StudyQuestion)
  | [], _ => pure []
  | q :: rest, idx => do
    let found ← findCategory idx categories
    let sq : StudyQuestion ← match found with
      | some c => do
          let t ← getStrField c "type"
          let d ← getStrField c "difficulty"
          pure { question := q, type := validateType t, difficulty := validateDifficulty d }
      | none =>
          pure { question := q, type := validateType "comprehension",
                 difficulty := validateDifficulty "medium" }
    let tail ← assignCategories categories rest (idx + 1)
    pure (sq :: tail)

/-- Try-block of `categorizeQuestions`.  `ok none` models falling out of
the `if (match)` without returning, which reaches the shared fallback
code after the catch. -/
def categorizeQuestionsBody (inv : ModelInvoker) (questions : List String) :
    Except Unit (Option (List StudyQuestion)) := do
  let prompt :=
    "Categorize each study question by TYPE and DIFFICULTY.\n\nQuestions:\n"
      ++ String.intercalate "\n" (questions.enum.map fun p => toString (p.1 + 1) ++ ". " ++ p.2)
      ++ "\n\nFor each question, determine:\nTYPE: \"recall\" (memory/facts), \"comprehension\" (understanding), or \"application\" (using concepts)\nDIFFICULTY: \"easy\", \"medium\", or \"hard\"\n\nReturn ONLY a JSON array of objects like:\n[\n  \x7b\"index\": 0, \"type\": \"recall\", \"difficulty\": \"easy\"\x7d,\n  \x7b\"index\": 1, \"type\": \"comprehension\", \"difficulty\": \"medium\"\x7d\n]"
  let resp ← inv
    [{ role := "system", content := "You categorize study questions. Return only valid JSON." },
     { role := "user", content := prompt }] 400 (0.2 : ℚ)
  let categoriesText := jsOr resp "[]"
  match extractJsonArray categoriesText with
  | some m =>
    match parseJson m with
    | some (.arr categories) => do
        let r ← assignCategories categories questions 0
        pure (some r)
    | _ => Except.error ()
  | none => pure none

/-- `categorizeQuestions`: empty input short-circuits to `[]`; both a
thrown error and a missing array pattern reach the fallback that labels
every question with the default pair. -/
def categorizeQuestions (inv : ModelInvoker) (questions : List String) :
    Except Unit (List StudyQuestion) :=
  if questions.length = 0 then pure []
  else
    match categorizeQuestionsBody inv questions with
    | .ok (some r) => pure r
    | _ =>
      pure (questions.map fun question =>
        { question := question, type := QType.comprehension, difficulty := QDifficulty.medium })

/-- `QuestionsWorkflow.run`: the three stages in order; `run` itself has
no catch. -/
def run (inv : ModelInvoker) (params : QuestionsWorkflowParams) :
    Except Unit QuestionsResult := do
  let difficulty ← analyzeContentDifficulty inv params.noteContent
  let questions ← generateQuestions inv params.noteContent params.noteTitle difficulty
  let categorizedQuestions ← categorizeQuestions inv questions
  pure { questions := categorizedQuestions, totalCount := categorizedQuestions.length }

end QuestionsWorkflow

/-! ## Claims about the session actor lifecycle -/

/-- C8: a `PostMessage` on a session whose `SessionState` is absent
fails with the session-not-initialized error and performs no storage
mutation at all: the returned state is the input state. -/
theorem claim_C8 (inv : ModelInvoker) (message : String) (noteContext : Option String)
    (now : Nat) (s : ActorState) (h : s.sessionData = none) :
    ChatSession.handleMessage inv message noteContext now s = (.notInitialized, s) := by
  unfold ChatSession.handleMessage
  rw [h]

theorem claim_C8_witness :
    (ActorState.mk none (some [{ role := "user", content := "hi", timestamp := 1 }]) none).sessionData
        = none ∧
    ChatSession.handleMessage (fun _ _ _ => .ok (some "r")) "hello" none 2
        (ActorState.mk none (some [{ role := "user", content := "hi", timestamp := 1 }]) none) =
      (.notInitialized,
        ActorState.mk none (some [{ role := "user", content := "hi", timestamp := 1 }]) none) :=
  ⟨rfl, claim_C8 (fun _ _ _ => .ok (some "r")) "hello" none 2 _ rfl⟩

/-- C9: `Clear` deletes exactly the stored message sequence: a
`GetHistory` immediately afterwards is empty, while `SessionState` and
the pending alarm are untouched. -/
theorem claim_C9 (s : ActorState) :
    ChatSession.handleClear s = { s with storedMessages := none } ∧
    ChatSession.handleGetHistory (ChatSession.handleClear s) = [] ∧
    (ChatSession.handleClear s).sessionData = s.sessionData ∧
    (ChatSession.handleClear s).alarm = s.alarm :=
  ⟨rfl, rfl, rfl, rfl⟩

/-- C10: the alarm handler on a never-initialized session (absent
`SessionState`) neither deletes nor trims stored messages and arms no
new wake-up — the fired alarm is merely consumed. -/
theorem claim_C10 (s : ActorState) (now : Nat) (h : s.sessionData = none) :
    ChatSession.alarmFire now s = { s with alarm := none } := by
  unfold ChatSession.alarmFire
  simp only [h]

theorem claim_C10_witness :
    (ActorState.mk none (some [{ role := "assistant", content := "m", timestamp := 0 }]) (some 7)).sessionData
        = none ∧
    ChatSession.alarmFire 99
        (ActorState.mk none (some [{ role := "assistant", content := "m", timestamp := 0 }]) (some 7)) =
      ActorState.mk none (some [{ role := "assistant", content := "m", timestamp := 0 }]) none :=
  ⟨rfl, claim_C10 _ 99 rfl⟩

/-- C7: the alarm handler on an initialized session.  Below the 24-hour
threshold it deletes nothing and re-arms the wake-up at exactly
`lastActivity + 24h`; at or above the threshold it deletes the stored
message sequence and leaves `SessionState` unchanged. -/
theorem claim_C7 (s : ActorState) (sd : SessionData) (now : Nat)
    (h : s.sessionData = some sd) :
    (now - sd.lastActivity < ChatSession.twentyFourHours →
      ChatSession.alarmFire now s =
        { s with alarm := some (sd.lastActivity + ChatSession.twentyFourHours) }) ∧
    (ChatSession.twentyFourHours ≤ now - sd.lastActivity →
      ChatSession.alarmFire now s = { s with storedMessages := none, alarm := none }) := by
  constructor
  · intro hc
    have hnot : ¬ ChatSession.twentyFourHours ≤ now - sd.lastActivity := Nat.not_le.mpr hc
    unfold ChatSession.alarmFire
    simp only [h, hnot, if_false]
  · intro hc
    unfold ChatSession.alarmFire
    simp only [h, hc, if_true]

theorem claim_C7_witness :
    ((ActorState.mk (some ⟨"n", "c", 5⟩) (some []) (some 1)).sessionData = some ⟨"n", "c", 5⟩ ∧
      6 - 5 < ChatSession.twentyFourHours ∧
      ChatSession.alarmFire 6 (ActorState.mk (some ⟨"n", "c", 5⟩) (some []) (some 1)) =
        ActorState.mk (some ⟨"n", "c", 5⟩) (some []) (some (5 + ChatSession.twentyFourHours))) ∧
    (ChatSession.twentyFourHours ≤ (5 + ChatSession.twentyFourHours) - 5 ∧
      ChatSession.alarmFire (5 + ChatSession.twentyFourHours)
          (ActorState.mk (some ⟨"n", "c", 5⟩) (some []) (some 1)) =
        ActorState.mk (some ⟨"n", "c", 5⟩) none none) :=
  ⟨⟨rfl, by decide,
    (claim_C7 (ActorState.mk (some ⟨"n", "c", 5⟩) (some []) (some 1)) ⟨"n", "c", 5⟩ 6 rfl).1
      (by decide)⟩,
   ⟨by simp [ChatSession.twentyFourHours],
    (claim_C7 (ActorState.mk (some ⟨"n", "c", 5⟩) (some []) (some 1)) ⟨"n", "c", 5⟩
        (5 + ChatSession.twentyFourHours) rfl).2 (by simp [ChatSession.twentyFourHours])⟩⟩

/-! ## Claim C1: PostMessage under invoker failure -/

/-- A model backend whose every call fails (the promise rejects). -/
def failingInvoker : ModelInvoker := fun _ _ _ => .error ()

/-- An initialized session with an empty stored history. -/
def c1State : ActorState :=
  { sessionData := some { noteId := "n1", noteContext := "ctx", lastActivity := 0 },
    storedMessages := some [],
    alarm := none }

/-- C1 as stated is false: on invoker failure the stored history does
NOT gain the just-appended user message.  `handleMessage` pushes the
user message onto the locally fetched array only; `storage.put` runs
solely in the success branch, so the catch branch leaves storage as it
was. -/
theorem claim_C1_counterexample :
    ¬ ((ChatSession.handleMessage failingInvoker "hi" none 5 c1State).2.storedMessages.getD [] =
        c1State.storedMessages.getD []
          ++ [{ role := "user", content := "hi", timestamp := 5 }]) := by
  decide

/-- C1 amended: on an initialized session whose model call fails,
`PostMessage` returns the model-call error, appends no assistant
message, and leaves the stored history entirely unchanged — the
just-appended user message is not persisted. -/
theorem claim_C1 (inv : ModelInvoker) (message : String) (noteContext : Option String)
    (now : Nat) (s : ActorState) (sd : SessionData)
    (hinit : s.sessionData = some sd)
    (hfail : ∀ m mt t, inv m mt t = .error ()) :
    (ChatSession.handleMessage inv message noteContext now s).1 = .aiFailed ∧
    (ChatSession.handleMessage inv message noteContext now s).2.storedMessages
        = s.storedMessages := by
  unfold ChatSession.handleMessage
  simp only [hinit, hfail]
  exact ⟨trivial, trivial⟩

theorem claim_C1_witness :
    c1State.sessionData = some { noteId := "n1", noteContext := "ctx", lastActivity := 0 } ∧
    (∀ m mt t, failingInvoker m mt t = .error ()) ∧
    ((ChatSession.handleMessage failingInvoker "hi" none 5 c1State).1 = .aiFailed ∧
      (ChatSession.handleMessage failingInvoker "hi" none 5 c1State).2.storedMessages
          = c1State.storedMessages) :=
  ⟨rfl, fun _ _ _ => rfl,
    claim_C1 failingInvoker "hi" none 5 c1State _ rfl (fun _ _ _ => rfl)⟩

/-! ## Claim C2: context window construction -/

/-- Twelve stored messages, oldest first. -/
def c2Stored : List ChatMessage :=
  [{ role := "user", content := "m0", timestamp := 0 },
   { role := "assistant", content := "m1", timestamp := 1 },
   { role := "user", content := "m2", timestamp := 2 },
   { role := "assistant", content := "m3", timestamp := 3 },
   { role := "user", content := "m4", timestamp := 4 },
   { role := "assistant", content := "m5", timestamp := 5 },
   { role := "user", content := "m6", timestamp := 6 },
   { role := "assistant", content := "m7", timestamp := 7 },
   { role := "user", content := "m8", timestamp := 8 },
   { role := "assistant", content := "m9", timestamp := 9 },
   { role := "user", content := "m10", timestamp := 10 },
   { role := "assistant", content := "m11", timestamp := 11 }]

/-- The user message appended by the `PostMessage` under scrutiny. -/
def c2User : ChatMessage := { role := "user", content := "u", timestamp := 12 }

/-- C2 as stated is false: with 12 stored messages the window handed to
the Model Invoker is NOT the system message plus the 10 most recent
stored messages.  `handleMessage` appends the new user message before
taking `slice(-10)`, so the window holds only the 9 most recent stored
messages plus the new user message. -/
theorem claim_C2_counterexample :
    ¬ (ChatSession.buildAiMessages "ctx" (c2Stored ++ [c2User]) =
        { role := "system", content := ChatSession.systemPromptFor "ctx" } ::
          ((takeLast 10 c2Stored).map fun m => { role := m.role, content := jsSlice m.content 2000 })) := by
  intro h
  have h1 : (ChatSession.buildAiMessages "ctx" (c2Stored ++ [c2User]))[1]? =
      ({ role := "system", content := ChatSession.systemPromptFor "ctx" } ::
        ((takeLast 10 c2Stored).map fun m =>
          { role := m.role, content := jsSlice m.content 2000 }))[1]? :=
    congrArg (fun l => l[1]?) h
  have e1 : (ChatSession.buildAiMessages "ctx" (c2Stored ++ [c2User]))[1]? =
      some { role := "assistant", content := "m3" } := rfl
  have e2 : (({ role := "system", content := ChatSession.systemPromptFor "ctx" } : AiMessage) ::
      ((takeLast 10 c2Stored).map fun m =>
        ({ role := m.role, content := jsSlice m.content 2000 } : AiMessage)))[1]? =
      some ({ role := "user", content := "m2" } : AiMessage) := rfl
  rw [e1, e2] at h1
  exact absurd h1 (by decide)

/-- C2 amended: with 12 stored messages, the window sent to the Model
Invoker is one synthesized system message (carrying `noteContext`
truncated to 4000 units inside the prompt template) followed by the 9
most recent stored messages and the just-appended user message, each
history entry truncated to 2000 content units. -/
theorem claim_C2 (ctx : String) (stored : List ChatMessage) (u : ChatMessage)
    (h : stored.length = 12) :
    ChatSession.buildAiMessages ctx (stored ++ [u]) =
      { role := "system", content := ChatSession.systemPromptFor ctx } ::
        ((takeLast 9 stored ++ [u]).map fun m =>
          { role := m.role, content := jsSlice m.content 2000 }) := by
  unfold ChatSession.buildAiMessages
  rw [show (10 : Nat) = 9 + 1 from rfl, takeLast_append_singleton]

theorem claim_C2_witness :
    c2Stored.length = 12 ∧
    ChatSession.buildAiMessages "ctx" (c2Stored ++ [c2User]) =
      { role := "system", content := ChatSession.systemPromptFor "ctx" } ::
        ((takeLast 9 c2Stored ++ [c2User]).map fun m =>
          { role := m.role, content := jsSlice m.content 2000 }) :=
  ⟨by decide, claim_C2 "ctx" c2Stored c2User (by decide)⟩

/-! ## Claim C3: summary pipeline under total invoker failure -/

theorem except_ok_bind {ε α β : Type} (a : α) (k : α → Except ε β) :
    (Except.ok a >>= k) = k a := rfl

theorem except_error_bind {ε α β : Type} (e : ε) (k : α → Except ε β) :
    ((Except.error e : Except ε α) >>= k) = Except.error e := rfl

def summaryParamsEx : SummaryWorkflowParams :=
  { noteId := "n1", noteContent := "content", noteTitle := "title" }

/-- C3 as stated is false: when every Model Invoker call fails, the
`topics` field is NOT empty — the catch block of `extractTopics` returns
the single default topic `['General']`. -/
theorem claim_C3_counterexample :
    ¬ (∃ r, SummaryWorkflow.run failingInvoker summaryParamsEx = .ok r ∧
        r.summary ≠ "" ∧ r.keyPoints = [] ∧ r.topics = []) := by
  rintro ⟨r, hr, -, -, ht⟩
  rw [show SummaryWorkflow.run failingInvoker summaryParamsEx =
      .ok { summary := "Error generating summary.", keyPoints := [],
            topics := [Json.str "General"] } from rfl] at hr
  injection hr with hr
  rw [← hr] at ht
  exact List.cons_ne_nil _ _ ht

/-- C3 amended: when every Model Invoker call fails,
`runSummaryPipeline` still returns a result whose `summary` is the
non-empty fallback error-marker text and whose `keyPoints` are empty,
but whose `topics` are the single default topic `['General']`. -/
theorem claim_C3 (inv : ModelInvoker) (params : SummaryWorkflowParams)
    (hfail : ∀ m mt t, inv m mt t = .error ()) :
    SummaryWorkflow.run inv params =
      .ok { summary := "Error generating summary.", keyPoints := [],
            topics := [Json.str "General"] } ∧
    "Error generating summary." ≠ "" := by
  have h1 : ∀ c t, SummaryWorkflow.extractTopics inv c t = .ok [Json.str "General"] := by
    intro c t
    unfold SummaryWorkflow.extractTopics SummaryWorkflow.extractTopicsBody
    simp only [hfail]
    rfl
  have h2 : ∀ c t tp, SummaryWorkflow.generateSummary inv c t tp =
      .ok "Error generating summary." := by
    intro c t tp
    unfold SummaryWorkflow.generateSummary SummaryWorkflow.generateSummaryBody
    simp only [hfail]
    rfl
  have h3 : ∀ c sm, SummaryWorkflow.extractKeyPoints inv c sm = .ok [] := by
    intro c sm
    unfold SummaryWorkflow.extractKeyPoints SummaryWorkflow.extractKeyPointsBody
    simp only [hfail]
    rfl
  refine ⟨?_, by decide⟩
  unfold SummaryWorkflow.run
  rw [h1, except_ok_bind, h2, except_ok_bind, h3, except_ok_bind]
  rfl

theorem claim_C3_witness :
    (∀ m mt t, failingInvoker m mt t = .error ()) ∧
    (SummaryWorkflow.run failingInvoker summaryParamsEx =
        .ok { summary := "Error generating summary.", keyPoints := [],
              topics := [Json.str "General"] } ∧
      "Error generating summary." ≠ "") :=
  ⟨fun _ _ _ => rfl, claim_C3 failingInvoker summaryParamsEx (fun _ _ _ => rfl)⟩

/-! ## Claim C6: pipelines are total -/

/-- A stage wrapped in `try/catch` with a fallback value can never
surface an error. -/
theorem jsTry_isOk {α : Type} (body : Except Unit α) (fb : α) :
    ∃ a, jsTry body fb = .ok a := by
  cases body with
  | ok a => exact ⟨a, rfl⟩
  | error e => exact ⟨fb, rfl⟩

/-- `categorizeQuestions` returns a value on every path: the empty
short-circuit, the parsed categorization, and the default-label
fallback. -/
theorem categorizeQuestions_isOk (inv : ModelInvoker) (qs : List String) :
    ∃ r, QuestionsWorkflow.categorizeQuestions inv qs = .ok r := by
  unfold QuestionsWorkflow.categorizeQuestions
  split
  · exact ⟨[], rfl⟩
  · split
    · exact ⟨_, rfl⟩
    · exact ⟨_, rfl⟩

/-- C6: both pipelines are total for every invoker behavior — every
stage absorbs its failures into a fallback before `run` sequences the
stages, so `run` always returns an `ok` result and never surfaces an
error. -/
theorem claim_C6 (inv : ModelInvoker) (sp : SummaryWorkflowParams)
    (qp : QuestionsWorkflowParams) :
    (∃ r, SummaryWorkflow.run inv sp = .ok r) ∧
    (∃ r, QuestionsWorkflow.run inv qp = .ok r) := by
  constructor
  · obtain ⟨tp, ht⟩ := jsTry_isOk (SummaryWorkflow.extractTopicsBody inv sp.noteContent sp.noteTitle)
      [Json.str "General"]
    obtain ⟨sm, hs⟩ := jsTry_isOk (SummaryWorkflow.generateSummaryBody inv sp.noteContent sp.noteTitle tp)
      "Error generating summary."
    obtain ⟨kp, hk⟩ := jsTry_isOk (SummaryWorkflow.extractKeyPointsBody inv sp.noteContent sm) []
    refine ⟨{ summary := sm, keyPoints := kp, topics := tp }, ?_⟩
    unfold SummaryWorkflow.run SummaryWorkflow.extractTopics SummaryWorkflow.generateSummary
      SummaryWorkflow.extractKeyPoints
    rw [ht, except_ok_bind, hs, except_ok_bind, hk, except_ok_bind]
    rfl
  · obtain ⟨d, hd⟩ := jsTry_isOk (QuestionsWorkflow.analyzeContentDifficultyBody inv qp.noteContent)
      "intermediate"
    obtain ⟨qs, hq⟩ := jsTry_isOk
      (QuestionsWorkflow.generateQuestionsBody inv qp.noteContent qp.noteTitle d) []
    obtain ⟨cs, hc⟩ := categorizeQuestions_isOk inv qs
    refine ⟨{ questions := cs, totalCount := cs.length }, ?_⟩
    unfold QuestionsWorkflow.run QuestionsWorkflow.analyzeContentDifficulty
      QuestionsWorkflow.generateQuestions
    rw [hd, except_ok_bind, hq, except_ok_bind, hc, except_ok_bind]
    rfl

/-! ## Claim C5: categorization defaults in the questions pipeline -/

/-- A Model Invoker stub for the questions pipeline, dispatching on the
stage-specific `max_tokens` (10 / 600 / 400 in the source): the
generate-questions stage yields a 3-element JSON array and the
categorization stage covers only indices 0 and 2. -/
def questionsStub : ModelInvoker := fun _ mt _ =>
  if mt = 10 then .ok (some "intermediate")
  else if mt = 600 then .ok (some "[\"Q1\", \"Q2\", \"Q3\"]")
  else .ok (some "[\x7b\"index\": 0, \"type\": \"recall\", \"difficulty\": \"easy\"\x7d, \x7b\"index\": 2, \"type\": \"application\", \"difficulty\": \"hard\"\x7d]")

def questionsParamsEx : QuestionsWorkflowParams :=
  { noteId := "n1", noteContent := "content", noteTitle := "title" }

/-- C5: with a 3-question generate stage and a categorization response
covering only indices 0 and 2, the pipeline returns 3 questions and the
uncovered index 1 carries the default pair (comprehension, medium);
and in general any categorization value whose case/whitespace
normalization is outside the allowed vocabulary validates to the
defaults `comprehension` and `medium`. -/
theorem claim_C5 :
    QuestionsWorkflow.run questionsStub questionsParamsEx =
      .ok { questions :=
              [{ question := "Q1", type := .recall, difficulty := .easy },
               { question := "Q2", type := .comprehension, difficulty := .medium },
               { question := "Q3", type := .application, difficulty := .hard }],
            totalCount := 3 } ∧
    (∀ s, jsNormalize s ∉ ["recall", "comprehension", "application"] →
      QuestionsWorkflow.validateType s = .comprehension) ∧
    (∀ s, jsNormalize s ∉ ["easy", "medium", "hard"] →
      QuestionsWorkflow.validateDifficulty s = .medium) := by
  refine ⟨by rfl, ?_, ?_⟩
  · intro s h
    simp only [List.mem_cons, List.not_mem_nil, or_false, not_or] at h
    simp [QuestionsWorkflow.validateType, h.1, h.2.1, h.2.2]
  · intro s h
    simp only [List.mem_cons, List.not_mem_nil, or_false, not_or] at h
    simp [QuestionsWorkflow.validateDifficulty, h.1, h.2.1, h.2.2]

theorem claim_C5_witness :
    jsNormalize " Recalls " ∉ ["recall", "comprehension", "application"] ∧
    QuestionsWorkflow.validateType " Recalls " = .comprehension ∧
    jsNormalize "EASYISH" ∉ ["easy", "medium", "hard"] ∧
    QuestionsWorkflow.validateDifficulty "EASYISH" = .medium :=
  ⟨by decide, claim_C5.2.1 " Recalls " (by decide),
   by decide, claim_C5.2.2 "EASYISH" (by decide)⟩

/-! ## Claim C4: history bound and FIFO eviction across call sequences -/

/-- One externally issued call in a `StoreMessage`/`PostMessage`
sequence against a single session. -/
inductive SessionOp where
  | storeMessage (role content : String) (now : Nat)
  | postMessage (inv : ModelInvoker) (message : String) (noteContext : Option String) (now : Nat)

/-- State transformer of one call (the returned body is dropped). -/
def applyOp (s : ActorState) : SessionOp → ActorState
  | .storeMessage role content now => (ChatSession.handleStoreMessage role content now s).2
  | .postMessage inv message noteContext now =>
      (ChatSession.handleMessage inv message noteContext now s).2

def runOps (s : ActorState) : List SessionOp → ActorState
  | [] => s
  | op :: rest => runOps (applyOp s op) rest

/-- The messages one call actually appends to the persisted sequence: a
valid `StoreMessage` appends one; a successful `PostMessage` appends the
user/assistant pair; every failing path appends nothing. -/
def appendedBy (s : ActorState) : SessionOp → List ChatMessage
  | .storeMessage role content now =>
      if role = "" ∨ content = "" then []
      else [{ role := role, content := content, timestamp := now }]
  | .postMessage inv message noteContext now =>
      match s.sessionData with
      | none => []
      | some sd0 =>
        let sd := match noteContext with
          | some nc => { sd0 with noteContext := nc, lastActivity := now }
          | none => sd0
        let messages :=
          ChatSession.getMessages s ++ [{ role := "user", content := message, timestamp := now }]
        match inv (ChatSession.buildAiMessages sd.noteContext messages) 1024 (7 / 10 : ℚ) with
        | .error _ => []
        | .ok resp =>
          [{ role := "user", content := message, timestamp := now },
           { role := "assistant", content := jsOr resp "Sorry, I could not generate a response.",
             timestamp := now }]

def appendedLog : ActorState → List SessionOp → List ChatMessage
  | _, [] => []
  | s, op :: rest => appendedBy s op ++ appendedLog (applyOp s op) rest

/-- Single-step form of the C4 invariant: each call leaves the persisted
sequence equal to the trimmed concatenation of the previous sequence and
whatever the call appended. -/
theorem getMessages_applyOp (s : ActorState) (op : SessionOp)
    (h : (ChatSession.getMessages s).length ≤ 50) :
    ChatSession.getMessages (applyOp s op) =
      takeLast 50 (ChatSession.getMessages s ++ appendedBy s op) := by
  cases op with
  | storeMessage role content now =>
    by_cases hrc : role = "" ∨ content = ""
    · simp only [applyOp, ChatSession.handleStoreMessage, appendedBy, hrc, if_true,
        List.append_nil]
      exact (takeLast_of_length_le 50 _ h).symm
    · simp only [applyOp, ChatSession.handleStoreMessage, appendedBy, hrc, if_false]
      cases hsd : s.sessionData <;>
        simp [hsd, ChatSession.getMessages]
  | postMessage inv message noteContext now =>
    cases hsd : s.sessionData with
    | none =>
      simp only [applyOp, ChatSession.handleMessage, appendedBy, hsd, List.append_nil]
      exact (takeLast_of_length_le 50 _ h).symm
    | some sd0 =>
      simp only [applyOp, ChatSession.handleMessage, appendedBy, hsd, ChatSession.getMessages]
      rcases hinv : inv
          (ChatSession.buildAiMessages
            (match noteContext with
              | some nc => { sd0 with noteContext := nc, lastActivity := now }
              | none => sd0).noteContext
            (s.storedMessages.getD [] ++ [{ role := "user", content := message, timestamp := now }]))
          1024 (7 / 10 : ℚ) with e | resp
      · simp only [hinv, List.append_nil]
        exact (takeLast_of_length_le 50 _ h).symm
      · simp only [hinv]
        simp [List.append_assoc]

/-- C4: over every sequence of `StoreMessage`/`PostMessage` calls
starting from a state whose persisted sequence is within the bound, the
persisted sequence is always the most recent 50-element suffix of the
starting sequence plus everything appended, and in particular never
exceeds 50 entries. -/
theorem claim_C4 (s : ActorState) (ops : List SessionOp)
    (h : (ChatSession.getMessages s).length ≤ 50) :
    ChatSession.getMessages (runOps s ops) =
      takeLast 50 (ChatSession.getMessages s ++ appendedLog s ops) ∧
    (ChatSession.getMessages (runOps s ops)).length ≤ 50 := by
  induction ops generalizing s with
  | nil =>
    refine ⟨?_, h⟩
    simp only [runOps, appendedLog, List.append_nil]
    exact (takeLast_of_length_le 50 _ h).symm
  | cons op rest ih =>
    have hstep := getMessages_applyOp s op h
    have hlen : (ChatSession.getMessages (applyOp s op)).length ≤ 50 := by
      rw [hstep]; exact takeLast_length_le _ _
    obtain ⟨e1, e2⟩ := ih (applyOp s op) hlen
    refine ⟨?_, e2⟩
    show ChatSession.getMessages (runOps (applyOp s op) rest) = _
    rw [e1, hstep, takeLast_append_takeLast, List.append_assoc]
    rfl

/-- Concrete instance of C4: an uninitialized session receiving a valid
store, a post that fails the init check, and an invalid store — the
persisted sequence is exactly the trimmed log of effective appends. -/
theorem claim_C4_witness :
    (ChatSession.getMessages { sessionData := none, storedMessages := none, alarm := none }).length
        ≤ 50 ∧
    (ChatSession.getMessages
        (runOps { sessionData := none, storedMessages := none, alarm := none }
          [.storeMessage "assistant" "summary" 1,
           .postMessage (fun _ _ _ => .ok (some "reply")) "q" none 2,
           .storeMessage "" "x" 3]) =
      takeLast 50
        (ChatSession.getMessages { sessionData := none, storedMessages := none, alarm := none } ++
          appendedLog { sessionData := none, storedMessages := none, alarm := none }
            [.storeMessage "assistant" "summary" 1,
             .postMessage (fun _ _ _ => .ok (some "reply")) "q" none 2,
             .storeMessage "" "x" 3]) ∧
      (ChatSession.getMessages
          (runOps { sessionData := none, storedMessages := none, alarm := none }
            [.storeMessage "assistant" "summary" 1,
             .postMessage (fun _ _ _ => .ok (some "reply")) "q" none 2,
             .storeMessage "" "x" 3])).length ≤ 50) :=
  ⟨by decide,
    claim_C4 { sessionData := none, storedMessages := none, alarm := none }
      [.storeMessage "assistant" "summary" 1,
       .postMessage (fun _ _ _ => .ok (some "reply")) "q" none 2,
       .storeMessage "" "x" 3] (by decide)⟩
